import Mathlib

/-!
Verification development for the i3ctl repository (Python CLI for the i3
window manager).  Every definition below is a shallow embedding translated
from a named function of the source tree; theorems check the repository's
natural-language specification against these definitions.
-/

set_option maxRecDepth 100000

namespace I3ctl

/-! ## Volume / brightness argument-vector construction

Embeds `VolumeCommand` (src/i3ctl/commands/volume.py) and
`BrightnessCommand` (src/i3ctl/commands/brightness.py).
-/

/-- The clamp used by the volume/brightness `set` subcommand:
Python `max(0, min(100, args.value))` (volume.py line 106, brightness.py
line 102). -/
def clamp100 (v : Int) : Int := max 0 (min 100 v)

/-- Parsed sub-actions of `i3ctl volume`. -/
inductive VolumeSub where
  | set (value : Int)
  | up (percent : Int)
  | down (percent : Int)
  | get
  | mute (state : String)
deriving DecidableEq

/-- Parsed sub-actions of `i3ctl brightness`. -/
inductive BrightnessSub where
  | set (value : Int)
  | up (percent : Int)
  | down (percent : Int)
  | get
deriving DecidableEq

/-- Argument vector built by `VolumeCommand._use_pulseaudio`
(volume.py lines 149--172); `none` for the `get` action, which runs query
commands instead of a single mutation command. -/
def use_pulseaudio_cmd (sink : String) : VolumeSub → Option (List String)
  | .set v => some ["pactl", "set-sink-volume", sink, toString v ++ "%"]
  | .up p => some ["pactl", "set-sink-volume", sink, "+" ++ toString p ++ "%"]
  | .down p => some ["pactl", "set-sink-volume", sink, "-" ++ toString p ++ "%"]
  | .get => none
  | .mute s =>
      if s = "on" then some ["pactl", "set-sink-mute", sink, "1"]
      else if s = "off" then some ["pactl", "set-sink-mute", sink, "0"]
      else some ["pactl", "set-sink-mute", sink, "toggle"]

/-- Argument vector built by `VolumeCommand._use_alsa`
(volume.py lines 251--272). -/
def use_alsa_cmd : VolumeSub → Option (List String)
  | .set v => some ["amixer", "sset", "Master", toString v ++ "%"]
  | .up p => some ["amixer", "sset", "Master", toString p ++ "%+"]
  | .down p => some ["amixer", "sset", "Master", toString p ++ "%-"]
  | .get => some ["amixer", "sget", "Master"]
  | .mute s =>
      if s = "on" then some ["amixer", "sset", "Master", "mute"]
      else if s = "off" then some ["amixer", "sset", "Master", "unmute"]
      else some ["amixer", "sset", "Master", "toggle"]

/-- Argument vector built by `BrightnessCommand._use_xbacklight`
(brightness.py lines 145--156). -/
def use_xbacklight_cmd : BrightnessSub → Option (List String)
  | .set v => some ["xbacklight", "-set", toString v]
  | .up p => some ["xbacklight", "-inc", toString p]
  | .down p => some ["xbacklight", "-dec", toString p]
  | .get => some ["xbacklight", "-get"]

/-- Argument vector built by `BrightnessCommand._use_brightnessctl`
(brightness.py lines 191--202). -/
def use_brightnessctl_cmd : BrightnessSub → Option (List String)
  | .set v => some ["brightnessctl", "set", toString v ++ "%"]
  | .up p => some ["brightnessctl", "set", toString p ++ "%+"]
  | .down p => some ["brightnessctl", "set", toString p ++ "%-"]
  | .get => some ["brightnessctl", "get"]

/-- Argument vector built by `BrightnessCommand._use_light`
(brightness.py lines 245--256). -/
def use_light_cmd : BrightnessSub → Option (List String)
  | .set v => some ["light", "-S", toString v]
  | .up p => some ["light", "-A", toString p]
  | .down p => some ["light", "-U", toString p]
  | .get => some ["light", "-G"]

/-- The argument transformation performed by `VolumeCommand.handle` before
calling a backend handler (volume.py lines 105--115): only `set` clamps its
value; `up`/`down` pass `args.percent` through unchanged. -/
def volume_action_of_sub : VolumeSub → VolumeSub
  | .set v => .set (clamp100 v)
  | s => s

/-- The argument transformation performed by `BrightnessCommand.handle`
before calling a backend handler (brightness.py lines 101--109). -/
def brightness_action_of_sub : BrightnessSub → BrightnessSub
  | .set v => .set (clamp100 v)
  | s => s

/-- Backend argument vector produced by `VolumeCommand.handle` for a given
tool name and sub-action (the composition of `handle`'s dispatch with the
per-tool `_use_*` builder; the tool table is `self._volume_handlers`,
volume.py lines 30--33). -/
def volume_cmd_for (tool sink : String) (sub : VolumeSub) : Option (List String) :=
  if tool = "pulseaudio" then use_pulseaudio_cmd sink (volume_action_of_sub sub)
  else if tool = "alsa" then use_alsa_cmd (volume_action_of_sub sub)
  else none

/-- Backend argument vector produced by `BrightnessCommand.handle` for a
given tool name and sub-action (tool table `self._brightness_handlers`,
brightness.py lines 31--35). -/
def brightness_cmd_for (tool : String) (sub : BrightnessSub) : Option (List String) :=
  if tool = "xbacklight" then use_xbacklight_cmd (brightness_action_of_sub sub)
  else if tool = "brightnessctl" then use_brightnessctl_cmd (brightness_action_of_sub sub)
  else if tool = "light" then use_light_cmd (brightness_action_of_sub sub)
  else none

/-! ## External command runner

Embeds `SystemUtils.run_command` (src/i3ctl/utils/system.py lines 52--99).
The fate of the attempted `subprocess.run` call is made explicit as a
`LaunchOutcome` value.
-/

/-- Outcome of attempting to run an external process via `subprocess.run`:
the process completed (with its own return code and captured streams), the
timeout expired (`subprocess.TimeoutExpired`), or launching failed with an
`OSError` such as a missing binary or denied permission. -/
inductive LaunchOutcome where
  | completed (returncode : Int) (stdout stderr : String)
  | timedOut
  | launchError (errno : Int) (strerror : String) (filename : String)
deriving DecidableEq

/-- CPython's `str(e)` rendering of an `OSError` that carries a filename:
`[Errno N] message: 'filename'`. -/
def oserror_str (errno : Int) (strerror filename : String) : String :=
  "[Errno " ++ toString errno ++ "] " ++ strerror ++ ": \x27" ++ filename ++ "\x27"

/-- The stderr text produced by the `subprocess.TimeoutExpired` branch of
`run_command`: Python `f"Command timed out after (timeout) seconds"`. -/
def timeout_msg (timeout : Option Nat) : String :=
  "Command timed out after " ++
    (match timeout with
     | some t => toString t
     | none => "None") ++ " seconds"

/-- Embeds `SystemUtils.run_command` (system.py lines 52--99).  A completed process
yields its own return code with streams captured only when
`capture_output` is set (a `CalledProcessError` raised under `check=True`
is caught and yields the same tuple); a timeout or a launch failure is
converted to the sentinel `(-1, None, message)`. -/
def run_command (command : List String) (capture_output : Bool) (check : Bool)
    (timeout : Option Nat) (outcome : LaunchOutcome) :
    Int × Option String × Option String :=
  match outcome with
  | .completed rc out err =>
      if capture_output then (rc, some out, some err) else (rc, none, none)
  | .timedOut => (-1, none, some (timeout_msg timeout))
  | .launchError errno strerror filename =>
      (-1, none, some (oserror_str errno strerror filename))

/-! ## Command registry

Embeds `register_command` (src/i3ctl/commands/__init__.py lines 10--22).
-/

/-- A Python class object as seen by `register_command`: its `__name__`,
its `name` class attribute (the registry key), whether it is a subclass of
`BaseCommand`, and a tag distinguishing distinct class objects that share
a name. -/
structure CommandClass where
  className : String
  name : String
  isBaseCommandSubclass : Bool
  tag : Nat
deriving DecidableEq

/-- Python dict item assignment `d[k] = v` on an association list: the
first binding of `k` keeps its position and gets the new value; an absent
key is appended at the end. -/
def dict_insert {α : Type} : List (String × α) → String → α → List (String × α)
  | [], k, v => [(k, v)]
  | kv :: rest, k, v =>
      if kv.1 = k then (k, v) :: rest else kv :: dict_insert rest k v

/-- Embeds `register_command` (commands/__init__.py lines 10--22): rejects
non-`BaseCommand` classes with a `ValueError`, then assigns
`_commands[command_class.name] = command_class`. -/
def register_command (registry : List (String × CommandClass)) (c : CommandClass) :
    Except String (List (String × CommandClass)) :=
  if ¬ c.isBaseCommandSubclass then
    .error (c.className ++ " must be a subclass of BaseCommand")
  else
    .ok (dict_insert registry c.name c)

/-! ## Dispatcher exit codes

Embeds `main` (src/i3ctl/cli.py lines 98--150) as a function of how its
body unfolds: which pre-dispatch branch is taken and how the resolved
handler behaves.
-/

/-- A Python exception crossing the dispatch boundary: `KeyboardInterrupt`
(which is not a subclass of `Exception`) or an ordinary `Exception`. -/
inductive PyExc where
  | interrupt
  | error (msg : String)
deriving DecidableEq

/-- Result of evaluating a Python block: a value or an escaping exception. -/
abbrev PyResult (α : Type) := Except PyExc α

/-- The inner `try` of `main` (cli.py lines 130--140): a clean handler run
returns the handler's code, or 0 when the handler returned `None`;
`except Exception` converts any ordinary exception to exit code 1;
a `KeyboardInterrupt` propagates. -/
def dispatch_try (handler : PyResult (Option Int)) : PyResult Int :=
  match handler with
  | .ok code => .ok (code.getD 0)
  | .error (.error _) => .ok 1
  | .error .interrupt => .error .interrupt

/-- How the body of `main` unfolds on a given run. -/
inductive MainFlow where
  | earlyRaise (e : PyExc)
  | noCommand
  | noFunc
  | dispatch (handler : PyResult (Option Int))

/-- The body of `main` inside the outer `try` (cli.py lines 108--143):
an exception before dispatch escapes; a missing command or a command
without a handler returns 1 after printing help / logging; otherwise the
inner dispatch `try` runs. -/
def main_body : MainFlow → PyResult Int
  | .earlyRaise e => .error e
  | .noCommand => .ok 1
  | .noFunc => .ok 1
  | .dispatch h => dispatch_try h

/-- Embeds `main` (cli.py lines 98--150): the outer `try` converts
`KeyboardInterrupt` to exit code 130 and any other escaping exception to
exit code 1. -/
def main (flow : MainFlow) : Int :=
  match main_body flow with
  | .ok code => code
  | .error .interrupt => 130
  | .error (.error _) => 1

/-! ## Wallpaper history

Embeds the list update of `WallpaperCommand._save_wallpaper_history`
(src/i3ctl/commands/wallpaper.py lines 264--288).
-/

/-- The history update of `_save_wallpaper_history`: remove the path if
already present (`history.remove(path)` drops the first occurrence),
insert it at the front, and keep only the first 10 entries. -/
def save_wallpaper_history (path : String) (history : List String) : List String :=
  ((if path ∈ history then history.erase path else history).cons path).take 10

/-! ## Backend tool selection

Embeds the resolution phase of `VolumeCommand.handle` (volume.py lines
81--103) and `BrightnessCommand.handle` (brightness.py lines 77--99)
together with the detectors and the volume/brightness rows of
`SystemUtils.detect_tools` (system.py lines 175--184).  Availability of
executables on `PATH` (`shutil.which`) is a parameter `avail`.
-/

/-- The keys of `VolumeCommand._volume_handlers` (volume.py lines 30--33). -/
def volume_handlers : List String := ["pulseaudio", "alsa"]

/-- The keys of `BrightnessCommand._brightness_handlers`
(brightness.py lines 31--35). -/
def brightness_handlers : List String := ["xbacklight", "brightnessctl", "light"]

/-- Embeds `VolumeCommand._detect_volume_tool` (volume.py lines 117--133). -/
def detect_volume_tool (avail : String → Bool) : Option String :=
  if avail "pactl" then some "pulseaudio"
  else if avail "amixer" then some "alsa"
  else none

/-- Embeds `BrightnessCommand._detect_brightness_tool`
(brightness.py lines 113--132). -/
def detect_brightness_tool (avail : String → Bool) : Option String :=
  if avail "xbacklight" then some "xbacklight"
  else if avail "brightnessctl" then some "brightnessctl"
  else if avail "light" then some "light"
  else none

/-- The `volume` row of the capability map built by
`SystemUtils.detect_tools` (system.py lines 181--184): which handler names
the Tool Detector reports available. -/
def detector_volume_available (avail : String → Bool) (tool : String) : Bool :=
  if tool = "pulseaudio" then avail "pactl"
  else if tool = "alsa" then avail "amixer"
  else false

/-- The `brightness` row of the capability map built by
`SystemUtils.detect_tools` (system.py lines 176--180). -/
def detector_brightness_available (avail : String → Bool) (tool : String) : Bool :=
  if tool = "xbacklight" then avail "xbacklight"
  else if tool = "brightnessctl" then avail "brightnessctl"
  else if tool = "light" then avail "light"
  else false

/-- Observable result of a handler's resolution phase: whether help was
printed, the lines printed via `print`, the handler's return value
(`none` models Python `None`), and the backend tool dispatched to, if
any. -/
structure HandleOut where
  printed_help : Bool
  prints : List String
  exit : Option Int
  dispatched : Option String
deriving DecidableEq

/-- Embeds `VolumeCommand.handle` (volume.py lines 74--115) up to backend
dispatch, as a function of the parsed subcommand, the persisted
`volume_tool` config value, and executable availability.  Every path of
this handler returns Python `None`. -/
def volume_handle (subcommand : Option VolumeSub) (config_tool : String)
    (avail : String → Bool) : HandleOut :=
  match subcommand with
  | none => ⟨true, [], none, none⟩
  | some _ =>
      if config_tool = "auto" then
        match detect_volume_tool avail with
        | none =>
            ⟨false, ["Error: No volume control tool found.",
                     "Please install PulseAudio (pactl) or ALSA (amixer)."],
             none, none⟩
        | some t => ⟨false, [], none, some t⟩
      else if config_tool ∈ volume_handlers then
        ⟨false, [], none, some config_tool⟩
      else
        ⟨false, ["Error: Unsupported volume tool: " ++ config_tool,
                 "Supported tools: pulseaudio, alsa"],
         none, none⟩

/-- Embeds `BrightnessCommand.handle` (brightness.py lines 67--111) up to backend
dispatch.  `backend_exit` gives the exit code returned by the per-tool
`_use_*` handler that the dispatch branch returns. -/
def brightness_handle (subcommand : Option BrightnessSub) (config_tool : String)
    (avail : String → Bool) (backend_exit : String → Int) : HandleOut :=
  match subcommand with
  | none => ⟨true, [], some 0, none⟩
  | some _ =>
      if config_tool = "auto" then
        match detect_brightness_tool avail with
        | none =>
            ⟨false, ["Error: No brightness control tool found.",
                     "Please install xbacklight, brightnessctl, or light."],
             some 1, none⟩
        | some t => ⟨false, [], some (backend_exit t), some t⟩
      else if config_tool ∈ brightness_handlers then
        ⟨false, [], some (backend_exit config_tool), some config_tool⟩
      else
        ⟨false, ["Error: Unsupported brightness tool: " ++ config_tool,
                 "Supported tools: xbacklight, brightnessctl, light"],
         some 1, none⟩

/-! ## Named profile registries

Embeds `KeybindCommand._delete_profile` (keybind.py lines 615--650),
`KeybindCommand._load_profile` (lines 509--535, through its registry and
file checks), and the analogous `WorkspaceCommand._delete_layout`
(workspace.py lines 632--668) and `WorkspaceCommand._load_layout`
(lines 525--552).  The filesystem is modelled as the list of existing
paths, with `os.remove` removing a path (the success case; a failing
`os.remove` only logs a warning in the source).
-/

/-- A registry entry stored by `_save_profile` / `_save_layout`:
its `"path"` field (absent keys read as Python `None` via `.get`). -/
structure ProfileInfo where
  path : Option String
  count : Int
deriving DecidableEq

/-- Registry mapping profile names to entries, as stored under a config
key such as `"keybinding_profiles"` or `"workspace_layouts"`. -/
abbrev ProfileRegistry := List (String × ProfileInfo)

/-- Existing files, as a list of paths. -/
abbrev FileSys := List String

/-- Result of a delete handler: printed lines, exit code, the updated
registry and the updated filesystem. -/
structure DeleteResult where
  prints : List String
  exit : Int
  registry : ProfileRegistry
  fs : FileSys
deriving DecidableEq

/-- Embeds `KeybindCommand._delete_profile` (keybind.py lines 615--650):
unknown name prints a not-found error and returns 1; otherwise the
profile's file is removed when it exists, the registry entry is deleted
(`del profiles[name]`) and the config is saved. -/
def delete_profile (name : String) (profiles : ProfileRegistry) (fs : FileSys) :
    DeleteResult :=
  match profiles.lookup name with
  | none => ⟨["Error: Profile \x27" ++ name ++ "\x27 not found"], 1, profiles, fs⟩
  | some info =>
      ⟨["Deleted keybinding profile \x27" ++ name ++ "\x27"], 0,
       profiles.filter (fun kv => kv.1 != name),
       match info.path with
       | some p => if p ∈ fs then fs.erase p else fs
       | none => fs⟩

/-- Embeds `WorkspaceCommand._delete_layout` (workspace.py lines 632--668):
identical structure to `delete_profile` with layout wording. -/
def delete_layout (name : String) (layouts : ProfileRegistry) (fs : FileSys) :
    DeleteResult :=
  match layouts.lookup name with
  | none => ⟨["Error: Layout \x27" ++ name ++ "\x27 not found"], 1, layouts, fs⟩
  | some info =>
      ⟨["Deleted workspace layout \x27" ++ name ++ "\x27"], 0,
       layouts.filter (fun kv => kv.1 != name),
       match info.path with
       | some p => if p ∈ fs then fs.erase p else fs
       | none => fs⟩

/-- Early outcome of a profile/layout load: the registry check failed,
the backing-file check failed, or the handler proceeds with the file. -/
inductive LoadStep where
  | notFound (prints : List String) (exit : Int)
  | fileMissing (prints : List String) (exit : Int)
  | proceeds (path : String)
deriving DecidableEq

/-- Embeds `KeybindCommand._load_profile` (keybind.py lines 509--535) through its
registry and file checks; the successful branch (patching the i3 config)
is represented by `proceeds`.  Python `if not profile_path` treats both
`None` and the empty string as missing. -/
def load_profile_step (name : String) (profiles : ProfileRegistry) (fs : FileSys) :
    LoadStep :=
  match profiles.lookup name with
  | none => .notFound ["Error: Profile \x27" ++ name ++ "\x27 not found"] 1
  | some info =>
      match info.path with
      | none => .fileMissing ["Error: Profile file not found: None"] 1
      | some p =>
          if p ≠ "" ∧ p ∈ fs then .proceeds p
          else .fileMissing ["Error: Profile file not found: " ++ p] 1

/-- Embeds `WorkspaceCommand._load_layout` (workspace.py lines 525--552) through
its registry and file checks. -/
def load_layout_step (name : String) (layouts : ProfileRegistry) (fs : FileSys) :
    LoadStep :=
  match layouts.lookup name with
  | none => .notFound ["Error: Layout \x27" ++ name ++ "\x27 not found"] 1
  | some info =>
      match info.path with
      | none => .fileMissing ["Error: Layout file not found: None"] 1
      | some p =>
          if p ≠ "" ∧ p ∈ fs then .proceeds p
          else .fileMissing ["Error: Layout file not found: " ++ p] 1

/-! ## JSON values

A model of the JSON documents handled by `json.load` / `json.dump` in
src/i3ctl/utils/config.py.  Objects are association lists in insertion
order (CPython dict semantics); numbers are restricted to integers, which
covers every value this program stores.
-/

/-- A JSON value as produced by Python's `json` module (floats omitted). -/
inductive JVal where
  | null
  | jbool (b : Bool)
  | jint (n : Int)
  | jstr (s : String)
  | jarr (elems : List JVal)
  | jobj (entries : List (String × JVal))

mutual

/-- Structural equality of JSON values (Python `==` on parsed documents,
restricted to the constructors modelled here). -/
def jval_beq : JVal → JVal → Bool
  | .null, .null => true
  | .jbool a, .jbool b => a == b
  | .jint a, .jint b => a == b
  | .jstr a, .jstr b => a == b
  | .jarr xs, .jarr ys => jval_list_beq xs ys
  | .jobj xs, .jobj ys => jval_entries_beq xs ys
  | _, _ => false

/-- Elementwise equality of JSON arrays. -/
def jval_list_beq : List JVal → List JVal → Bool
  | [], [] => true
  | x :: xs, y :: ys => jval_beq x y && jval_list_beq xs ys
  | _, _ => false

/-- Entrywise equality of JSON objects. -/
def jval_entries_beq : List (String × JVal) → List (String × JVal) → Bool
  | [], [] => true
  | (k, v) :: xs, (k', v') :: ys => k == k' && jval_beq v v' && jval_entries_beq xs ys
  | _, _ => false

end

instance : BEq JVal := ⟨jval_beq⟩

/-- Lower-case hex digit, as used by `json.dumps` \u escapes. -/
def hex_digit (n : Nat) : Char :=
  if n < 10 then Char.ofNat (48 + n) else Char.ofNat (87 + n)

/-- Four lower-case hex digits. -/
def hex4 (n : Nat) : String :=
  String.mk [hex_digit (n / 4096 % 16), hex_digit (n / 256 % 16),
             hex_digit (n / 16 % 16), hex_digit (n % 16)]

/-- Escaping by `json.dumps` of one character (default `ensure_ascii=True`):
printable ASCII is kept, the two-character escapes are used where JSON has
them, and everything else becomes `\uXXXX` (a surrogate pair above the
BMP). -/
def json_escape_char (c : Char) : String :=
  if c = '"' then "\\\""
  else if c = '\\' then "\\\\"
  else if c = '\n' then "\\n"
  else if c = '\t' then "\\t"
  else if c = '\r' then "\\r"
  else if c.toNat = 8 then "\\b"
  else if c.toNat = 12 then "\\f"
  else if c.toNat < 32 then "\\u" ++ hex4 c.toNat
  else if c.toNat < 127 then String.singleton c
  else if c.toNat < 65536 then "\\u" ++ hex4 c.toNat
  else
    "\\u" ++ hex4 (55296 + (c.toNat - 65536) / 1024) ++
    "\\u" ++ hex4 (56320 + (c.toNat - 65536) % 1024)

/-- A JSON string literal as written by `json.dumps`. -/
def json_quote (s : String) : String :=
  "\"" ++ String.join (s.data.map json_escape_char) ++ "\""

/-- Indentation written by `json.dump(..., indent=4)` at nesting depth
`d`. -/
def json_pad (d : Nat) : String := String.mk (List.replicate (4 * d) ' ')

mutual

/-- Serialization of one value by `json.dump(v, f, indent=4)` at nesting
depth `d` (with an indent, the default separators are `","` and `": "`,
each item on its own line). -/
def dumps_val : JVal → Nat → String
  | .null, _ => "null"
  | .jbool true, _ => "true"
  | .jbool false, _ => "false"
  | .jint n, _ => toString n
  | .jstr s, _ => json_quote s
  | .jarr [], _ => "[]"
  | .jarr (x :: xs), d =>
      "[\n" ++ dumps_items (x :: xs) (d + 1) ++ "\n" ++ json_pad d ++ "]"
  | .jobj [], _ => "\x7b\x7d"
  | .jobj (kv :: kvs), d =>
      "\x7b\n" ++ dumps_entries (kv :: kvs) (d + 1) ++ "\n" ++ json_pad d ++ "\x7d"

/-- Array items, one per line, comma-separated. -/
def dumps_items : List JVal → Nat → String
  | [], _ => ""
  | [x], d => json_pad d ++ dumps_val x d
  | x :: y :: xs, d =>
      json_pad d ++ dumps_val x d ++ ",\n" ++ dumps_items (y :: xs) d

/-- Object entries, one per line, comma-separated, `": "` after each key. -/
def dumps_entries : List (String × JVal) → Nat → String
  | [], _ => ""
  | [(k, v)], d => json_pad d ++ json_quote k ++ ": " ++ dumps_val v d
  | (k, v) :: kv :: kvs, d =>
      json_pad d ++ json_quote k ++ ": " ++ dumps_val v d ++ ",\n" ++
        dumps_entries (kv :: kvs) d

end

/-- Serialization of a whole document by `json.dump(v, f, indent=4)`. -/
def dumps (v : JVal) : String := dumps_val v 0

/-- JSON whitespace skipping (`json.load` accepts space, tab, newline and
carriage return between tokens). -/
def skip_ws : List Char → List Char
  | [] => []
  | c :: cs =>
      if c = ' ' ∨ c = '\t' ∨ c = '\n' ∨ c = '\r' then skip_ws cs else c :: cs

/-- Is `c` a hexadecimal digit? -/
def is_hex_digit (c : Char) : Bool :=
  c.isDigit || (decide ('a' ≤ c) && decide (c ≤ 'f')) ||
    (decide ('A' ≤ c) && decide (c ≤ 'F'))

/-- Value of a hexadecimal digit. -/
def hex_val (c : Char) : Nat :=
  if c.isDigit then c.toNat - 48
  else if decide ('a' ≤ c) && decide (c ≤ 'f') then c.toNat - 87
  else c.toNat - 55

/-- Parse the body of a JSON string literal (the opening quote already
consumed): returns the decoded characters and the input after the closing
quote.  Escapes follow the JSON grammar; `\uXXXX` surrogate pairs are
combined; raw control characters are rejected (strict mode). -/
def parse_string_chars : List Char → Option (List Char × List Char)
  | [] => none
  | '"' :: rest => some ([], rest)
  | '\\' :: 'u' :: h1 :: h2 :: h3 :: h4 :: rest =>
      if is_hex_digit h1 && is_hex_digit h2 && is_hex_digit h3 && is_hex_digit h4 then
        let code := hex_val h1 * 4096 + hex_val h2 * 256 + hex_val h3 * 16 + hex_val h4
        if 55296 ≤ code ∧ code ≤ 56319 then
          match rest with
          | '\\' :: 'u' :: l1 :: l2 :: l3 :: l4 :: rest₂ =>
              if is_hex_digit l1 && is_hex_digit l2 && is_hex_digit l3 && is_hex_digit l4 then
                let low := hex_val l1 * 4096 + hex_val l2 * 256 + hex_val l3 * 16 + hex_val l4
                if 56320 ≤ low ∧ low ≤ 57343 then
                  (parse_string_chars rest₂).map
                    (fun p =>
                      (Char.ofNat (65536 + (code - 55296) * 1024 + (low - 56320)) :: p.1,
                       p.2))
                else none
              else none
          | _ => none
        else if 56320 ≤ code ∧ code ≤ 57343 then none
        else (parse_string_chars rest).map (fun p => (Char.ofNat code :: p.1, p.2))
      else none
  | '\\' :: e :: rest =>
      if e = '"' then (parse_string_chars rest).map (fun p => ('"' :: p.1, p.2))
      else if e = '\\' then (parse_string_chars rest).map (fun p => ('\\' :: p.1, p.2))
      else if e = '/' then (parse_string_chars rest).map (fun p => ('/' :: p.1, p.2))
      else if e = 'b' then (parse_string_chars rest).map (fun p => (Char.ofNat 8 :: p.1, p.2))
      else if e = 'f' then (parse_string_chars rest).map (fun p => (Char.ofNat 12 :: p.1, p.2))
      else if e = 'n' then (parse_string_chars rest).map (fun p => ('\n' :: p.1, p.2))
      else if e = 'r' then (parse_string_chars rest).map (fun p => ('\r' :: p.1, p.2))
      else if e = 't' then (parse_string_chars rest).map (fun p => ('\t' :: p.1, p.2))
      else none
  | c :: rest =>
      if c.toNat < 32 then none
      else (parse_string_chars rest).map (fun p => (c :: p.1, p.2))

/-- Take a maximal run of decimal digits. -/
def take_digits : List Char → List Char × List Char
  | [] => ([], [])
  | c :: cs =>
      if c.isDigit then
        let p := take_digits cs
        (c :: p.1, p.2)
      else ([], c :: cs)

/-- Decimal value of a digit run. -/
def digits_to_nat (ds : List Char) : Nat :=
  ds.foldl (fun a c => a * 10 + (c.toNat - 48)) 0

/-- Parse a JSON number.  The integer grammar (`-? (0 | [1-9][0-9]*)`)
follows `json.load`, which rejects leading zeros; a fraction or exponent
would make a float, which this model does not represent, so such input is
rejected rather than misread. -/
def parse_number : List Char → Option (JVal × List Char) := fun cs =>
  let sp := match cs with
            | '-' :: r => (true, r)
            | r => (false, r)
  match sp.2 with
  | '0' :: r =>
      match r with
      | c :: _ => if c.isDigit ∨ c = '.' ∨ c = 'e' ∨ c = 'E' then none
                  else some (.jint 0, r)
      | [] => some (.jint 0, [])
  | c :: _ =>
      if c.isDigit then
        let p := take_digits sp.2
        match p.2 with
        | c₂ :: _ =>
            if c₂ = '.' ∨ c₂ = 'e' ∨ c₂ = 'E' then none
            else some (.jint (if sp.1 then -(digits_to_nat p.1 : Int)
                              else (digits_to_nat p.1 : Int)), p.2)
        | [] => some (.jint (if sp.1 then -(digits_to_nat p.1 : Int)
                             else (digits_to_nat p.1 : Int)), [])
      else none
  | [] => none

/-- Build a CPython dict from parsed key/value pairs: a repeated key keeps
its first position and the last value. -/
def build_dict (pairs : List (String × JVal)) : List (String × JVal) :=
  pairs.foldl (fun d kv => dict_insert d kv.1 kv.2) []

mutual

/-- Recursive-descent model of `json.loads` on one value (fuel bounds the
recursion; `json_loads` supplies enough for any input). -/
def parse_value : Nat → List Char → Option (JVal × List Char)
  | 0, _ => none
  | fuel + 1, cs =>
      match skip_ws cs with
      | 'n' :: 'u' :: 'l' :: 'l' :: rest => some (.null, rest)
      | 't' :: 'r' :: 'u' :: 'e' :: rest => some (.jbool true, rest)
      | 'f' :: 'a' :: 'l' :: 's' :: 'e' :: rest => some (.jbool false, rest)
      | '"' :: rest =>
          (parse_string_chars rest).map (fun p => (.jstr (String.mk p.1), p.2))
      | '[' :: rest =>
          (match skip_ws rest with
           | ']' :: r => some (.jarr [], r)
           | cs' => (parse_elems fuel cs').map (fun p => (.jarr p.1, p.2)))
      | '\x7b' :: rest =>
          (match skip_ws rest with
           | '\x7d' :: r => some (.jobj [], r)
           | cs' => (parse_members fuel cs').map (fun p => (.jobj (build_dict p.1), p.2)))
      | cs' => parse_number cs'

/-- Elements of a non-empty JSON array after `[`. -/
def parse_elems : Nat → List Char → Option (List JVal × List Char)
  | 0, _ => none
  | fuel + 1, cs =>
      match parse_value fuel cs with
      | none => none
      | some (v, rest) =>
          match skip_ws rest with
          | ',' :: r => (parse_elems fuel r).map (fun p => (v :: p.1, p.2))
          | ']' :: r => some ([v], r)
          | _ => none

/-- Members of a non-empty JSON object after the opening brace. -/
def parse_members : Nat → List Char → Option (List (String × JVal) × List Char)
  | 0, _ => none
  | fuel + 1, cs =>
      match skip_ws cs with
      | '"' :: kr =>
          match parse_string_chars kr with
          | none => none
          | some (kchars, rest) =>
              match skip_ws rest with
              | ':' :: r =>
                  match parse_value fuel r with
                  | none => none
                  | some (v, rest₂) =>
                      match skip_ws rest₂ with
                      | ',' :: r₂ =>
                          (parse_members fuel r₂).map
                            (fun p => ((String.mk kchars, v) :: p.1, p.2))
                      | '\x7d' :: r₂ => some ([(String.mk kchars, v)], r₂)
                      | _ => none
              | _ => none
      | _ => none

end

/-- Model of `json.loads` on a whole document: one value, surrounded only by
whitespace. -/
def json_loads (s : String) : Option JVal :=
  match parse_value (2 * s.length + 2) s.data with
  | some (v, rest) => if skip_ws rest = [] then some v else none
  | none => none

/-! ## Config store

Embeds `load_config` / `save_config` (src/i3ctl/utils/config.py lines
35--88).  The config file is modelled as absent, readable with given
content, or unreadable (an `open`/read error); `os.path.expanduser` and
`os.environ.get("EDITOR")` are parameters.
-/

/-- State of the config file at `~/.config/i3ctl/config.json`. -/
inductive ConfigFile where
  | absent
  | readable (content : String)
  | unreadable
deriving DecidableEq

/-- Embeds `DEFAULT_CONFIG` (config.py lines 17--25). -/
def default_config (home : String) (editor_env : Option String) :
    List (String × JVal) :=
  [("i3_config_path", .jstr (home ++ "/.config/i3/config")),
   ("editor", .jstr (editor_env.getD "nano")),
   ("brightness_tool", .jstr "auto"),
   ("volume_tool", .jstr "auto"),
   ("wallpaper_tool", .jstr "auto"),
   ("log_level", .jstr "INFO"),
   ("log_file", .jstr (home ++ "/.config/i3ctl/i3ctl.log"))]

/-- Python `k in d` for a dict modelled as an association list. -/
def contains_key (kvs : List (String × JVal)) (k : String) : Bool :=
  kvs.any (fun kv => kv.1 == k)

/-- Python `pat in s` (substring containment). -/
def str_contains (s pat : String) : Bool :=
  (List.range (s.length + 1)).any
    (fun i => ((s.data.drop i).take pat.length) == pat.data)

/-- The merge loop of `load_config` (config.py lines 54--58): for each
default key missing from the loaded document, assign it (appending at the
end, CPython dict order) and mark the document updated. -/
def merge_defaults (config defaults : List (String × JVal)) :
    List (String × JVal) × Bool :=
  defaults.foldl
    (fun acc kv => if contains_key acc.1 kv.1 then acc else (acc.1 ++ [kv], true))
    (config, false)

/-- Embeds `save_config` (config.py lines 70--88), write-success case: the file
is replaced by `json.dump(config, f, indent=4)`. -/
def save_config (config : JVal) : ConfigFile := .readable (dumps config)

/-- Embeds `load_config` (config.py lines 35--67): returns the resulting document
and the file state afterwards.  An absent file is created with defaults; a
read error or a parse error is caught and yields a fresh default document
with the file untouched.  When the parsed document is not a dict, the
merge loop either raises `TypeError` (caught, yielding defaults) or — for
a list/string that happens to contain every default key under Python's
`in` — falls through and returns the non-dict value unchanged. -/
def load_config (home : String) (editor_env : Option String) (file : ConfigFile) :
    JVal × ConfigFile :=
  let defaults := default_config home editor_env
  match file with
  | .absent => (.jobj defaults, .readable (dumps (.jobj defaults)))
  | .unreadable => (.jobj defaults, .unreadable)
  | .readable s =>
      match json_loads s with
      | none => (.jobj defaults, .readable s)
      | some (.jobj kvs) =>
          let m := merge_defaults kvs defaults
          if m.2 then (.jobj m.1, .readable (dumps (.jobj m.1)))
          else (.jobj m.1, .readable s)
      | some (.jarr xs) =>
          if defaults.all (fun kv => xs.any (fun x => x == JVal.jstr kv.1)) then
            (.jarr xs, .readable s)
          else (.jobj defaults, .readable s)
      | some (.jstr t) =>
          if defaults.all (fun kv => str_contains t kv.1) then
            (.jstr t, .readable s)
          else (.jobj defaults, .readable s)
      | some v => (.jobj defaults, .readable s)

/-! ## Helper lemmas -/

theorem eq_empty_of_data_eq_nil (a : String) (h : a.data = []) : a = "" := by
  cases a with
  | mk l =>
      have h2 : l = [] := h
      subst h2
      rfl

theorem append_ne_empty_left (a b : String) (h : a ≠ "") : a ++ b ≠ "" := by
  intro hab
  apply h
  apply eq_empty_of_data_eq_nil
  have h2 : a.data ++ b.data = [] := congrArg String.data hab
  exact (List.append_eq_nil.mp h2).1

theorem timeout_msg_ne_empty (t : Option Nat) : timeout_msg t ≠ "" := by
  unfold timeout_msg
  apply append_ne_empty_left
  apply append_ne_empty_left
  decide

theorem oserror_str_ne_empty (errno : Int) (strerror filename : String) :
    oserror_str errno strerror filename ≠ "" := by
  unfold oserror_str
  apply append_ne_empty_left
  apply append_ne_empty_left
  apply append_ne_empty_left
  apply append_ne_empty_left
  apply append_ne_empty_left
  apply append_ne_empty_left
  decide

theorem lookup_dict_insert {α : Type} (d : List (String × α)) (k : String) (v : α) :
    (dict_insert d k v).lookup k = some v := by
  induction d with
  | nil => simp [dict_insert, List.lookup]
  | cons kv rest ih =>
      obtain ⟨k', v'⟩ := kv
      by_cases h : k' = k
      · subst h
        simp [dict_insert, List.lookup]
      · have hbeq : (k == k') = false := beq_eq_false_iff_ne.mpr (Ne.symm h)
        simp [dict_insert, h, List.lookup, hbeq, ih]

theorem dict_insert_idem {α : Type} (d : List (String × α)) (k : String) (v : α) :
    dict_insert (dict_insert d k v) k v = dict_insert d k v := by
  induction d with
  | nil => simp [dict_insert]
  | cons kv rest ih =>
      obtain ⟨k', v'⟩ := kv
      by_cases h : k' = k
      · simp [dict_insert, h]
      · simp [dict_insert, h, ih]

theorem clamp100_of_nonpos (v : Int) (h : v ≤ 0) : clamp100 v = 0 := by
  unfold clamp100
  rw [min_eq_right (by omega : v ≤ (100 : Int)), max_eq_left h]

theorem clamp100_of_ge (v : Int) (h : 100 ≤ v) : clamp100 v = 100 := by
  unfold clamp100
  rw [min_eq_left h, max_eq_right (by omega : (0 : Int) ≤ 100)]

theorem save_wallpaper_history_eq (path : String) (h : List String) :
    save_wallpaper_history path h = (path :: h.erase path).take 10 := by
  unfold save_wallpaper_history
  by_cases hm : path ∈ h
  · simp [hm]
  · simp [hm, List.erase_of_not_mem hm]

theorem save_wallpaper_history_nodup (path : String) (h : List String) (hn : h.Nodup) :
    (save_wallpaper_history path h).Nodup := by
  rw [save_wallpaper_history_eq]
  apply List.Nodup.sublist (List.take_sublist _ _)
  rw [List.nodup_cons]
  refine ⟨fun hmem => ?_, hn.erase _⟩
  exact absurd ((hn.mem_erase_iff).mp hmem).1 (by simp)

theorem save_wallpaper_history_length (path : String) (h : List String) :
    (save_wallpaper_history path h).length ≤ 10 := by
  rw [save_wallpaper_history_eq]
  exact (List.length_take_le _ _)

theorem history_foldl_nodup (paths : List String) :
    ∀ h : List String, h.Nodup →
      (paths.foldl (fun acc p => save_wallpaper_history p acc) h).Nodup := by
  induction paths with
  | nil => intro h hn; exact hn
  | cons p rest ih =>
      intro h hn
      exact ih _ (save_wallpaper_history_nodup p h hn)

theorem history_foldl_length (paths : List String) :
    ∀ h : List String, h.length ≤ 10 →
      (paths.foldl (fun acc p => save_wallpaper_history p acc) h).length ≤ 10 := by
  induction paths with
  | nil => intro h hl; exact hl
  | cons p rest ih =>
      intro h _
      exact ih _ (save_wallpaper_history_length p h)

/-! ## Claims -/

/-- C2: for every argv list, `run_command` never raises: a timeout or a
failure to launch the process yields the sentinel result
`(-1, None, non-empty error message)`; a completed process yields its own
exit code with its streams captured according to `capture_output`. -/
theorem run_command_never_raises (cmd : List String) (cap chk : Bool) (t : Option Nat) :
    (∀ rc out err,
      run_command cmd cap chk t (.completed rc out err) =
        (rc, if cap then some out else none, if cap then some err else none)) ∧
    (∃ msg, run_command cmd cap chk t .timedOut = (-1, none, some msg) ∧ msg ≠ "") ∧
    (∀ errno strerror filename, ∃ msg,
      run_command cmd cap chk t (.launchError errno strerror filename) =
        (-1, none, some msg) ∧ msg ≠ "") := by
  refine ⟨fun rc out err => ?_,
          ⟨timeout_msg t, rfl, timeout_msg_ne_empty t⟩,
          fun errno strerror filename =>
            ⟨oserror_str errno strerror filename, rfl,
             oserror_str_ne_empty errno strerror filename⟩⟩
  cases cap <;> rfl

/-- A registered command class (used as a concrete registry inhabitant). -/
def volume_class : CommandClass := ⟨"VolumeCommand", "volume", true, 0⟩

/-- A distinct command class sharing the name `"volume"`. -/
def other_volume_class : CommandClass := ⟨"OtherVolumeCommand", "volume", true, 1⟩

/-- C3 counterexample: registering a second, distinct class under an
already-registered name does not raise — `register_command` returns
normally and silently replaces the earlier class. -/
theorem register_duplicate_no_raise :
    register_command [] volume_class = .ok [("volume", volume_class)] ∧
    register_command [("volume", volume_class)] other_volume_class =
      .ok [("volume", other_volume_class)] ∧
    List.lookup "volume" [("volume", other_volume_class)] = some other_volume_class := by
  refine ⟨rfl, ?_, rfl⟩
  rfl

/-- C3 (amended): registering a duplicate name never raises — the second
registration succeeds and the registry maps the name to the later class
(last write wins); re-registering the same class is idempotent; the only
registration-time error is a non-`BaseCommand` argument. -/
theorem register_last_write_wins (reg : List (String × CommandClass))
    (c₁ c₂ : CommandClass)
    (h₁ : c₁.isBaseCommandSubclass = true) (h₂ : c₂.isBaseCommandSubclass = true)
    (hname : c₁.name = c₂.name) :
    ∃ r₁ r₂, register_command reg c₁ = .ok r₁ ∧
      register_command r₁ c₂ = .ok r₂ ∧
      r₂.lookup c₂.name = some c₂ ∧
      register_command r₂ c₂ = .ok r₂ ∧
      (∀ c : CommandClass, c.isBaseCommandSubclass = false →
        register_command reg c = .error (c.className ++ " must be a subclass of BaseCommand")) := by
  refine ⟨dict_insert reg c₁.name c₁, dict_insert (dict_insert reg c₁.name c₁) c₂.name c₂,
          ?_, ?_, ?_, ?_, ?_⟩
  · simp [register_command, h₁]
  · simp [register_command, h₂]
  · exact lookup_dict_insert _ _ _
  · simp [register_command, h₂, dict_insert_idem]
  · intro c hc
    simp [register_command, hc]

/-- C3 witness: the amended behaviour at a concrete registry. -/
theorem register_last_write_wins_witness :
    ∃ r₁ r₂, register_command [] volume_class = .ok r₁ ∧
      register_command r₁ other_volume_class = .ok r₂ ∧
      r₂.lookup other_volume_class.name = some other_volume_class ∧
      register_command r₂ other_volume_class = .ok r₂ ∧
      (∀ c : CommandClass, c.isBaseCommandSubclass = false →
        register_command [] c = .error (c.className ++ " must be a subclass of BaseCommand")) :=
  register_last_write_wins [] volume_class other_volume_class rfl rfl rfl

/-- C4: dispatch exit codes of `main`: an ordinary exception escaping a
handler gives 1, a keyboard interrupt gives 130 (whether raised during
dispatch or earlier), and a clean run gives the handler's exit code, or 0
when the handler returned `None`. -/
theorem main_exit_codes (c : Option Int) (msg : String) :
    main (.dispatch (.error (.error msg))) = 1 ∧
    main (.dispatch (.error .interrupt)) = 130 ∧
    main (.earlyRaise .interrupt) = 130 ∧
    main (.dispatch (.ok c)) = c.getD 0 ∧
    main (.dispatch (.ok none)) = 0 := by
  refine ⟨rfl, rfl, rfl, ?_, rfl⟩
  cases c <;> rfl

/-- C5: the wallpaper history is most-recent-first, deduplicated and
capped at 10: from an empty history, setting A, B, A yields `[A, B]`,
and any sequence of sets yields a duplicate-free list of length at
most 10. -/
theorem wallpaper_history_claim (A B : String) (hAB : A ≠ B) :
    ([A, B, A].foldl (fun h p => save_wallpaper_history p h) [] = [A, B]) ∧
    (∀ paths : List String,
      (paths.foldl (fun h p => save_wallpaper_history p h) []).Nodup ∧
      (paths.foldl (fun h p => save_wallpaper_history p h) []).length ≤ 10) := by
  constructor
  · have hBA : B ≠ A := Ne.symm hAB
    simp [save_wallpaper_history, List.erase_cons, hAB, hBA]
  · intro paths
    exact ⟨history_foldl_nodup paths [] List.nodup_nil,
           history_foldl_length paths [] (by simp)⟩

/-- C5 witness: the A, B, A example at concrete wallpapers. -/
theorem wallpaper_history_claim_witness :
    (["/w/a.png", "/w/b.png", "/w/a.png"].foldl
        (fun h p => save_wallpaper_history p h) [] = ["/w/a.png", "/w/b.png"]) ∧
    (∀ paths : List String,
      (paths.foldl (fun h p => save_wallpaper_history p h) []).Nodup ∧
      (paths.foldl (fun h p => save_wallpaper_history p h) []).length ≤ 10) :=
  wallpaper_history_claim "/w/a.png" "/w/b.png" (by decide)

/-- C6: volume and brightness `set` clamp to [0,100] before building the
backend argument vector, so any negative value behaves exactly like 0 and
any value above 100 exactly like 100, for every supported backend tool. -/
theorem set_clamps (tool sink : String) (v : Int) :
    (v < 0 →
      volume_cmd_for tool sink (.set v) = volume_cmd_for tool sink (.set 0) ∧
      brightness_cmd_for tool (.set v) = brightness_cmd_for tool (.set 0)) ∧
    (100 < v →
      volume_cmd_for tool sink (.set v) = volume_cmd_for tool sink (.set 100) ∧
      brightness_cmd_for tool (.set v) = brightness_cmd_for tool (.set 100)) := by
  constructor
  · intro h
    have hv : clamp100 v = clamp100 0 := by
      rw [clamp100_of_nonpos v (le_of_lt h), clamp100_of_nonpos 0 le_rfl]
    constructor <;>
      simp [volume_cmd_for, brightness_cmd_for, volume_action_of_sub,
            brightness_action_of_sub, hv]
  · intro h
    have hv : clamp100 v = clamp100 100 := by
      rw [clamp100_of_ge v (le_of_lt h), clamp100_of_ge 100 le_rfl]
    constructor <;>
      simp [volume_cmd_for, brightness_cmd_for, volume_action_of_sub,
            brightness_action_of_sub, hv]

/-- C6 witness: `set -10` equals `set 0` and `set 150` equals `set 100`
at concrete backends. -/
theorem set_clamps_witness :
    volume_cmd_for "pulseaudio" "somesink" (.set (-10)) =
      volume_cmd_for "pulseaudio" "somesink" (.set 0) ∧
    brightness_cmd_for "light" (.set 150) = brightness_cmd_for "light" (.set 100) :=
  ⟨((set_clamps "pulseaudio" "somesink" (-10)).1 (by norm_num)).1,
   ((set_clamps "light" "unused" 150).2 (by norm_num)).2⟩

/-- C10: the percent argument of volume/brightness `up`/`down` is not
clamped: for every integer percent it is rendered verbatim into the
backend argument vector of each supported tool. -/
theorem up_down_unclamped (sink : String) (p : Int) :
    volume_cmd_for "pulseaudio" sink (.up p) =
      some ["pactl", "set-sink-volume", sink, "+" ++ toString p ++ "%"] ∧
    volume_cmd_for "pulseaudio" sink (.down p) =
      some ["pactl", "set-sink-volume", sink, "-" ++ toString p ++ "%"] ∧
    volume_cmd_for "alsa" sink (.up p) =
      some ["amixer", "sset", "Master", toString p ++ "%+"] ∧
    volume_cmd_for "alsa" sink (.down p) =
      some ["amixer", "sset", "Master", toString p ++ "%-"] ∧
    brightness_cmd_for "xbacklight" (.up p) = some ["xbacklight", "-inc", toString p] ∧
    brightness_cmd_for "xbacklight" (.down p) = some ["xbacklight", "-dec", toString p] ∧
    brightness_cmd_for "brightnessctl" (.up p) =
      some ["brightnessctl", "set", toString p ++ "%+"] ∧
    brightness_cmd_for "brightnessctl" (.down p) =
      some ["brightnessctl", "set", toString p ++ "%-"] ∧
    brightness_cmd_for "light" (.up p) = some ["light", "-A", toString p] ∧
    brightness_cmd_for "light" (.down p) = some ["light", "-U", toString p] := by
  refine ⟨rfl, rfl, rfl, rfl, rfl, rfl, rfl, rfl, rfl, rfl⟩

theorem lookup_filter_ne {α : Type} (l : List (String × α)) (k : String) :
    (l.filter (fun kv => kv.1 != k)).lookup k = none := by
  induction l with
  | nil => simp
  | cons kv rest ih =>
      obtain ⟨k', v'⟩ := kv
      by_cases h : k' = k
      · subst h
        simp [List.filter, ih]
      · have hbne : (k' != k) = true := bne_iff_ne.mpr h
        have hbeq : (k == k') = false := beq_eq_false_iff_ne.mpr (Ne.symm h)
        simp [List.filter, hbne, List.lookup, hbeq, ih]

theorem not_mem_remove_self (p : String) (fs : List String) (h : fs.Nodup) :
    p ∉ (if p ∈ fs then fs.erase p else fs) := by
  by_cases hm : p ∈ fs
  · rw [if_pos hm]
    intro hmem
    exact absurd ((h.mem_erase_iff).mp hmem).1 (by simp)
  · rw [if_neg hm]
    exact hm

theorem merge_foldl_no_op (ds : List (String × JVal)) (c : List (String × JVal)) (u : Bool)
    (h : ∀ kv ∈ ds, contains_key c kv.1 = true) :
    ds.foldl (fun acc kv => if contains_key acc.1 kv.1 then acc else (acc.1 ++ [kv], true))
      (c, u) = (c, u) := by
  induction ds with
  | nil => rfl
  | cons kv rest ih =>
      have h1 : contains_key c kv.1 = true := h kv (List.mem_cons_self _ _)
      have step : (if contains_key c kv.1 then (c, u) else (c ++ [kv], true)) = (c, u) :=
        if_pos h1
      calc ((kv :: rest).foldl
              (fun acc kv => if contains_key acc.1 kv.1 then acc else (acc.1 ++ [kv], true))
              (c, u))
          = rest.foldl
              (fun acc kv => if contains_key acc.1 kv.1 then acc else (acc.1 ++ [kv], true))
              (c, u) := by rw [List.foldl_cons, step]
        _ = (c, u) := ih (fun kv hkv => h kv (List.mem_cons_of_mem _ hkv))

theorem merge_defaults_no_op (kvs ds : List (String × JVal))
    (h : ∀ kv ∈ ds, contains_key kvs kv.1 = true) :
    merge_defaults kvs ds = (kvs, false) := by
  unfold merge_defaults
  exact merge_foldl_no_op ds kvs false h

/-- C1 counterexample: with no executable available, an explicitly
configured `volume_tool = "pulseaudio"` is still resolved and dispatched
to, although the Tool Detector reports it unavailable; and in auto mode
with no tool available `VolumeCommand.handle` prints the error but
returns `None`, which the dispatcher maps to exit code 0, not a non-zero
code. -/
theorem volume_tool_resolution_counterexample :
    (volume_handle (some .get) "pulseaudio" (fun _ => false)).dispatched =
      some "pulseaudio" ∧
    detector_volume_available (fun _ => false) "pulseaudio" = false ∧
    (volume_handle (some .get) "auto" (fun _ => false)).prints =
      ["Error: No volume control tool found.",
       "Please install PulseAudio (pactl) or ALSA (amixer)."] ∧
    (volume_handle (some .get) "auto" (fun _ => false)).exit = none ∧
    main (.dispatch (.ok (volume_handle (some .get) "auto" (fun _ => false)).exit)) = 0 :=
  ⟨rfl, rfl, rfl, rfl, rfl⟩

/-- C1 (amended): in auto-detect mode the resolved tool is always one the
Tool Detector reports available, and when none is available both handlers
print a "no tool found" message — brightness returns exit code 1, but
volume returns `None` (exit code 0 through the dispatcher); an explicit
config preference is validated only against the supported-tool table, not
against availability. -/
theorem tool_resolution_amended (avail : String → Bool) (ct : String)
    (sub : VolumeSub) (bsub : BrightnessSub) (be : String → Int) :
    (∀ t, (volume_handle (some sub) "auto" avail).dispatched = some t →
       detector_volume_available avail t = true) ∧
    (∀ t, (brightness_handle (some bsub) "auto" avail be).dispatched = some t →
       detector_brightness_available avail t = true) ∧
    (detect_volume_tool avail = none →
       (volume_handle (some sub) "auto" avail).prints =
         ["Error: No volume control tool found.",
          "Please install PulseAudio (pactl) or ALSA (amixer)."] ∧
       (volume_handle (some sub) "auto" avail).exit = none ∧
       main (.dispatch (.ok (volume_handle (some sub) "auto" avail).exit)) = 0) ∧
    (detect_brightness_tool avail = none →
       (brightness_handle (some bsub) "auto" avail be).prints =
         ["Error: No brightness control tool found.",
          "Please install xbacklight, brightnessctl, or light."] ∧
       (brightness_handle (some bsub) "auto" avail be).exit = some 1) ∧
    (ct ∈ volume_handlers → (volume_handle (some sub) ct avail).dispatched = some ct) ∧
    (ct ∈ brightness_handlers →
       (brightness_handle (some bsub) ct avail be).dispatched = some ct) := by
  refine ⟨?_, ?_, ?_, ?_, ?_, ?_⟩
  · intro t ht
    by_cases h1 : avail "pactl" = true <;> by_cases h2 : avail "amixer" = true <;>
      simp [volume_handle, detect_volume_tool, h1, h2] at ht <;>
      simp [detector_volume_available, ← ht, h1, h2]
  · intro t ht
    by_cases h1 : avail "xbacklight" = true <;>
      by_cases h2 : avail "brightnessctl" = true <;>
      by_cases h3 : avail "light" = true <;>
      simp [brightness_handle, detect_brightness_tool, h1, h2, h3] at ht <;>
      simp [detector_brightness_available, ← ht, h1, h2, h3]
  · intro hdet
    refine ⟨?_, ?_, ?_⟩ <;> simp [volume_handle, hdet, main, main_body, dispatch_try]
  · intro hdet
    constructor <;> simp [brightness_handle, hdet]
  · intro hct
    have : ct = "pulseaudio" ∨ ct = "alsa" := by simpa [volume_handlers] using hct
    rcases this with h | h <;> subst h <;> rfl
  · intro hct
    have : ct = "xbacklight" ∨ ct = "brightnessctl" ∨ ct = "light" := by
      simpa [brightness_handlers] using hct
    rcases this with h | h | h <;> subst h <;> rfl

/-- C1 witness: the amended behaviour at concrete availability maps. -/
theorem tool_resolution_amended_witness :
    ((volume_handle (some .get) "auto" (fun _ => false)).exit = none ∧
      main (.dispatch (.ok (volume_handle (some .get) "auto" (fun _ => false)).exit)) = 0) ∧
    (brightness_handle (some .get) "auto" (fun _ => false) (fun _ => 0)).exit = some 1 ∧
    (volume_handle (some .get) "alsa" (fun _ => true)).dispatched = some "alsa" :=
  ⟨⟨((tool_resolution_amended (fun _ => false) "alsa" .get .get (fun _ => 0)).2.2.1 rfl).2.1,
    ((tool_resolution_amended (fun _ => false) "alsa" .get .get (fun _ => 0)).2.2.1 rfl).2.2⟩,
   ((tool_resolution_amended (fun _ => false) "alsa" .get .get (fun _ => 0)).2.2.2.1 rfl).2,
   (tool_resolution_amended (fun _ => true) "alsa" .get .get (fun _ => 0)).2.2.2.2.1
     (by simp [volume_handlers])⟩

/-- C7: deleting a registered keybinding profile (and likewise a
workspace layout) removes the registry entry and the backing file, and a
subsequent load reports "not found" with exit code 1 instead of
crashing. -/
theorem delete_then_load_profile (name : String) (profiles layouts : ProfileRegistry)
    (fs fs₂ : FileSys) (info linfo : ProfileInfo)
    (hp : profiles.lookup name = some info)
    (hl : layouts.lookup name = some linfo)
    (hfs : fs.Nodup) (hfs₂ : fs₂.Nodup) :
    (delete_profile name profiles fs).exit = 0 ∧
    ((delete_profile name profiles fs).registry).lookup name = none ∧
    (∀ p, info.path = some p → p ∉ (delete_profile name profiles fs).fs) ∧
    load_profile_step name (delete_profile name profiles fs).registry
        (delete_profile name profiles fs).fs =
      .notFound ["Error: Profile \x27" ++ name ++ "\x27 not found"] 1 ∧
    (delete_layout name layouts fs₂).exit = 0 ∧
    ((delete_layout name layouts fs₂).registry).lookup name = none ∧
    (∀ p, linfo.path = some p → p ∉ (delete_layout name layouts fs₂).fs) ∧
    load_layout_step name (delete_layout name layouts fs₂).registry
        (delete_layout name layouts fs₂).fs =
      .notFound ["Error: Layout \x27" ++ name ++ "\x27 not found"] 1 := by
  refine ⟨?_, ?_, ?_, ?_, ?_, ?_, ?_, ?_⟩
  · simp [delete_profile, hp]
  · simp [delete_profile, hp, lookup_filter_ne]
  · intro p hpath
    simp [delete_profile, hp, hpath]
    exact not_mem_remove_self p fs hfs
  · simp [load_profile_step, delete_profile, hp, lookup_filter_ne]
  · simp [delete_layout, hl]
  · simp [delete_layout, hl, lookup_filter_ne]
  · intro p hpath
    simp [delete_layout, hl, hpath]
    exact not_mem_remove_self p fs₂ hfs₂
  · simp [load_layout_step, delete_layout, hl, lookup_filter_ne]

/-- C7 witness: delete-then-load at a concrete registry and filesystem. -/
theorem delete_then_load_profile_witness :
    (delete_profile "work" [("work", ⟨some "/d/kb_work.txt", 3⟩)] ["/d/kb_work.txt"]).exit = 0 ∧
    ((delete_profile "work" [("work", ⟨some "/d/kb_work.txt", 3⟩)]
        ["/d/kb_work.txt"]).registry).lookup "work" = none ∧
    (∀ p, (⟨some "/d/kb_work.txt", 3⟩ : ProfileInfo).path = some p →
      p ∉ (delete_profile "work" [("work", ⟨some "/d/kb_work.txt", 3⟩)]
             ["/d/kb_work.txt"]).fs) ∧
    load_profile_step "work"
        (delete_profile "work" [("work", ⟨some "/d/kb_work.txt", 3⟩)]
           ["/d/kb_work.txt"]).registry
        (delete_profile "work" [("work", ⟨some "/d/kb_work.txt", 3⟩)]
           ["/d/kb_work.txt"]).fs =
      .notFound ["Error: Profile \x27" ++ "work" ++ "\x27 not found"] 1 ∧
    (delete_layout "work" [("work", ⟨some "/d/ws_work.json", 2⟩)] ["/d/ws_work.json"]).exit = 0 ∧
    ((delete_layout "work" [("work", ⟨some "/d/ws_work.json", 2⟩)]
        ["/d/ws_work.json"]).registry).lookup "work" = none ∧
    (∀ p, (⟨some "/d/ws_work.json", 2⟩ : ProfileInfo).path = some p →
      p ∉ (delete_layout "work" [("work", ⟨some "/d/ws_work.json", 2⟩)]
             ["/d/ws_work.json"]).fs) ∧
    load_layout_step "work"
        (delete_layout "work" [("work", ⟨some "/d/ws_work.json", 2⟩)]
           ["/d/ws_work.json"]).registry
        (delete_layout "work" [("work", ⟨some "/d/ws_work.json", 2⟩)]
           ["/d/ws_work.json"]).fs =
      .notFound ["Error: Layout \x27" ++ "work" ++ "\x27 not found"] 1 :=
  delete_then_load_profile "work" [("work", ⟨some "/d/kb_work.txt", 3⟩)]
    [("work", ⟨some "/d/ws_work.json", 2⟩)] ["/d/kb_work.txt"] ["/d/ws_work.json"]
    ⟨some "/d/kb_work.txt", 3⟩ ⟨some "/d/ws_work.json", 2⟩ rfl rfl
    (by simp) (by simp)

/-- C9: a config file that exists but cannot be read or parsed makes
`load_config` return a fresh copy of the defaults (holding every default
key) and leaves the file content untouched — no exception, no persisted
merge. -/
theorem load_config_corrupt (home : String) (ed : Option String) (s : String)
    (hparse : json_loads s = none) :
    load_config home ed (.readable s) = (.jobj (default_config home ed), .readable s) ∧
    load_config home ed .unreadable = (.jobj (default_config home ed), .unreadable) ∧
    (default_config home ed).map Prod.fst =
      ["i3_config_path", "editor", "brightness_tool", "volume_tool",
       "wallpaper_tool", "log_level", "log_file"] := by
  refine ⟨?_, rfl, rfl⟩
  simp [load_config, hparse]

/-- C9 witness: a concrete unparseable file. -/
theorem load_config_corrupt_witness :
    load_config "/home/user" none (.readable "not json \x7b\x7b") =
      (.jobj (default_config "/home/user" none), .readable "not json \x7b\x7b") ∧
    load_config "/home/user" none .unreadable =
      (.jobj (default_config "/home/user" none), .unreadable) ∧
    (default_config "/home/user" none).map Prod.fst =
      ["i3_config_path", "editor", "brightness_tool", "volume_tool",
       "wallpaper_tool", "log_level", "log_file"] :=
  load_config_corrupt "/home/user" none "not json \x7b\x7b" rfl

/-- A compact (non-indented) serialization of a complete config document,
as an external editor might write it. -/
def c8_compact_file : String :=
  "\x7b\"i3_config_path\": \"/home/user/.config/i3/config\", " ++
  "\"editor\": \"nano\", " ++
  "\"brightness_tool\": \"auto\", " ++
  "\"volume_tool\": \"auto\", " ++
  "\"wallpaper_tool\": \"auto\", " ++
  "\"log_level\": \"INFO\", " ++
  "\"log_file\": \"/home/user/.config/i3ctl/i3ctl.log\"\x7d"

/-- The document held by `c8_compact_file`. -/
def c8_doc : List (String × JVal) := default_config "/home/user" none

/-- C8 counterexample: a config file that parses to a document containing
every default key, but is not in `json.dump(..., indent=4)` form, is
rewritten with different bytes by `save_config(load_config())` even
though no key changed. -/
theorem config_roundtrip_counterexample :
    json_loads c8_compact_file = some (.jobj c8_doc) ∧
    (default_config "/home/user" none).all (fun kv => contains_key c8_doc kv.1) = true ∧
    (load_config "/home/user" none (.readable c8_compact_file)).2 =
      .readable c8_compact_file ∧
    save_config (load_config "/home/user" none (.readable c8_compact_file)).1 ≠
      .readable c8_compact_file := by
  refine ⟨rfl, rfl, rfl, ?_⟩
  decide

/-- C8 (amended): `save_config(load_config())` is byte-stable exactly when
the existing file content is already the canonical
`json.dump(..., indent=4)` serialization of its parsed document (as
`save_config` itself writes it) and no default key is missing; a file
with any other formatting is rewritten. -/
theorem config_roundtrip_canonical (home : String) (ed : Option String)
    (s : String) (kvs : List (String × JVal))
    (hparse : json_loads s = some (.jobj kvs))
    (hkeys : ∀ kv ∈ default_config home ed, contains_key kvs kv.1 = true)
    (hcanon : s = dumps (.jobj kvs)) :
    (load_config home ed (.readable s)).2 = .readable s ∧
    save_config (load_config home ed (.readable s)).1 = .readable s := by
  have hmerge : merge_defaults kvs (default_config home ed) = (kvs, false) :=
    merge_defaults_no_op kvs (default_config home ed) hkeys
  constructor
  · simp [load_config, hparse, hmerge]
  · simp [load_config, save_config, hparse, hmerge]
    exact hcanon.symm

/-- C8 witness: round-trip stability on a canonically formatted file. -/
theorem config_roundtrip_canonical_witness :
    (load_config "/home/user" none (.readable (dumps (.jobj c8_doc)))).2 =
      .readable (dumps (.jobj c8_doc)) ∧
    save_config (load_config "/home/user" none (.readable (dumps (.jobj c8_doc)))).1 =
      .readable (dumps (.jobj c8_doc)) :=
  config_roundtrip_canonical "/home/user" none (dumps (.jobj c8_doc)) c8_doc
    rfl (by intro kv hkv; fin_cases hkv <;> rfl) rfl

end I3ctl
